import Mathlib

/-!
Verification of the Rubik's cube engine of garg-tejas/rubiks-solver.

The definitions below are a shallow embedding of the TypeScript sources:
`src/lib/cube-solver.ts` (class `RubiksCubeSolver`: the facelet state, the
move engine, the scrambler and the demo "Kociemba" solver),
`src/lib/cube-state-manager.ts` (class `CubeStateManager`: the session
manager with its move history and undo), and the 3D component's own
`applyMove` (the unnamed `RubiksCube3D` component file).

Modelling conventions:
  - JavaScript objects are value-semantic here; `JSON.parse(JSON.stringify(x))`
    deep copies are the identity on values.
  - A JavaScript runtime error (reading a property of `undefined`, as
    `state.faces[face]` does for an unknown face character) is modelled as
    `Option.none`; a normal return is `some`.
  - `Math.random()` driven code is parametrised by the stream of draws
    (`rand : Nat → Fin 18`, the successive values of
    `Math.floor(Math.random() * 18)`), and the scrambler's unbounded
    `do…while` retry loop carries explicit fuel.
  - The wall-clock fields (`performance.now()`, `solutionTime`) are timing
    only and are left out of the embedded `SolutionResult`; the float
    `estimatedTime` is modelled over `ℚ`.
-/

/-- The six sticker colors of `type Color` in cube-solver.ts. -/
inductive Color where
  | white
  | yellow
  | red
  | orange
  | blue
  | green
deriving DecidableEq, Repr

/-- The six faces of `type Face` in cube-solver.ts. -/
inductive Face where
  | U
  | D
  | L
  | R
  | F
  | B
deriving DecidableEq, Repr

/-- One 3×3 face grid (`Color[][]` with rows 0..2 and columns 0..2);
field `sIJ` is row I, column J. -/
structure FaceGrid where
  s00 : Color
  s01 : Color
  s02 : Color
  s10 : Color
  s11 : Color
  s12 : Color
  s20 : Color
  s21 : Color
  s22 : Color
deriving DecidableEq, Repr

/-- `interface CubeState`: a record of the six face grids. -/
structure CubeState where
  U : FaceGrid
  D : FaceGrid
  L : FaceGrid
  R : FaceGrid
  F : FaceGrid
  B : FaceGrid
deriving DecidableEq, Repr

/-- A face grid filled with one color. -/
def uniformFace (c : Color) : FaceGrid :=
  ⟨c, c, c, c, c, c, c, c, c⟩

/-- `SOLVED_STATE`: white U, yellow D, orange L, red R, green F, blue B. -/
def solvedCube : CubeState :=
  { U := uniformFace Color.white
    D := uniformFace Color.yellow
    L := uniformFace Color.orange
    R := uniformFace Color.red
    F := uniformFace Color.green
    B := uniformFace Color.blue }

/-- `createSolvedCube()`: a deep copy of the template, which is the identity
on values. -/
def createSolvedCube : CubeState := solvedCube

/-- The in-place 90° clockwise rotation `rotateFace` performs on the turned
face's own 3×3 grid (the two four-cycles on corners and edges; the center
`[1][1]` is untouched). -/
def rotSelf (g : FaceGrid) : FaceGrid :=
  { s00 := g.s20
    s01 := g.s10
    s02 := g.s00
    s10 := g.s21
    s11 := g.s11
    s12 := g.s01
    s20 := g.s22
    s21 := g.s12
    s22 := g.s02 }

/-- `rotateFace` of cube-solver.ts (one clockwise quarter turn): rotate the
face's own grid, then cycle the four adjacent three-sticker strips per
`rotateAdjacentFaces` (the version with all six cases, lines 616–704).
Each final sticker value is written in terms of the state before the turn,
following the source's sequence of assignments and its `temp` saves. -/
def rotateFace : Face → CubeState → CubeState
  | Face.R, s =>
      { s with
        R := rotSelf s.R
        U := { s.U with s02 := s.F.s02, s12 := s.F.s12, s22 := s.F.s22 }
        F := { s.F with s02 := s.D.s02, s12 := s.D.s12, s22 := s.D.s22 }
        D := { s.D with s02 := s.B.s20, s12 := s.B.s10, s22 := s.B.s00 }
        B := { s.B with s00 := s.U.s22, s10 := s.U.s12, s20 := s.U.s02 } }
  | Face.U, s =>
      { s with
        U := rotSelf s.U
        F := { s.F with s00 := s.R.s00, s01 := s.R.s01, s02 := s.R.s02 }
        R := { s.R with s00 := s.B.s00, s01 := s.B.s01, s02 := s.B.s02 }
        B := { s.B with s00 := s.L.s00, s01 := s.L.s01, s02 := s.L.s02 }
        L := { s.L with s00 := s.F.s00, s01 := s.F.s01, s02 := s.F.s02 } }
  | Face.F, s =>
      { s with
        F := rotSelf s.F
        U := { s.U with s20 := s.L.s22, s21 := s.L.s12, s22 := s.L.s02 }
        L := { s.L with s02 := s.D.s00, s12 := s.D.s01, s22 := s.D.s02 }
        D := { s.D with s00 := s.R.s20, s01 := s.R.s10, s02 := s.R.s00 }
        R := { s.R with s00 := s.U.s20, s10 := s.U.s21, s20 := s.U.s22 } }
  | Face.L, s =>
      { s with
        L := rotSelf s.L
        U := { s.U with s00 := s.B.s22, s10 := s.B.s12, s20 := s.B.s02 }
        B := { s.B with s02 := s.D.s20, s12 := s.D.s10, s22 := s.D.s00 }
        D := { s.D with s00 := s.F.s00, s10 := s.F.s10, s20 := s.F.s20 }
        F := { s.F with s00 := s.U.s00, s10 := s.U.s10, s20 := s.U.s20 } }
  | Face.D, s =>
      { s with
        D := rotSelf s.D
        F := { s.F with s20 := s.L.s20, s21 := s.L.s21, s22 := s.L.s22 }
        L := { s.L with s20 := s.B.s20, s21 := s.B.s21, s22 := s.B.s22 }
        B := { s.B with s20 := s.R.s20, s21 := s.R.s21, s22 := s.R.s22 }
        R := { s.R with s20 := s.F.s20, s21 := s.F.s21, s22 := s.F.s22 } }
  | Face.B, s =>
      { s with
        B := rotSelf s.B
        U := { s.U with s00 := s.R.s02, s01 := s.R.s12, s02 := s.R.s22 }
        R := { s.R with s02 := s.D.s22, s12 := s.D.s21, s22 := s.D.s20 }
        D := { s.D with s20 := s.L.s00, s21 := s.L.s10, s22 := s.L.s20 }
        L := { s.L with s00 := s.U.s02, s10 := s.U.s01, s20 := s.U.s00 } }

/-- The `for (let i = 0; i < rotations; i++) rotateFace(...)` loop. -/
def rotN (f : Face) : Nat → CubeState → CubeState
  | 0, s => s
  | n + 1, s => rotN f n (rotateFace f s)

/-- The `as Face` cast of `move.charAt(0)`: which face character a move token
starts with. `none` means `state.faces[face]` is `undefined` in the source
and the first rotation throws a TypeError. -/
def charToFace (c : Char) : Option Face :=
  if c = 'U' then some Face.U
  else if c = 'D' then some Face.D
  else if c = 'L' then some Face.L
  else if c = 'R' then some Face.R
  else if c = 'F' then some Face.F
  else if c = 'B' then some Face.B
  else none

/-- `applyMove(state, move)` of cube-solver.ts: parse `move.charAt(0)` as the
face and `move.slice(1)` as the modifier; `'` means 3 clockwise rotations,
`2` means 2, anything else (including the empty modifier) means 1; then apply
`rotateFace` that many times to a copy of the state. A token whose face
character is unknown (or an empty token, whose `charAt(0)` is `""`) makes the
source throw on `state.faces[face][0][0]`, modelled as `none`. -/
def applyMove (s : CubeState) (move : String) : Option CubeState :=
  let modifier : String := String.mk (move.toList.drop 1)
  let rotations : Nat := if modifier = "'" then 3 else if modifier = "2" then 2 else 1
  (move.toList.head?.bind charToFace).map (fun f => rotN f rotations s)

/-- `possibleMoves` of `scrambleCube`: the 18-move alphabet, in source order. -/
def possibleMoves : List String :=
  ["R", "R'", "R2", "L", "L'", "L2", "U", "U'", "U2",
   "D", "D'", "D2", "F", "F'", "F2", "B", "B'", "B2"]

/-- `isOppositeMove(move1, move2)`: whether the two tokens share the same
base face character (`charAt(0)` comparison). -/
def isOppositeMove (move1 move2 : String) : Bool :=
  move1.toList.take 1 = move2.toList.take 1

/-- Replaying a move list in order with `applyMove`, failing if any single
application fails. -/
def replay : CubeState → List String → Option CubeState
  | s, [] => some s
  | s, m :: ms =>
      match applyMove s m with
      | none => none
      | some s' => replay s' ms

/-- The center facelet (row 1, column 1) of a face of a state. -/
def centerOf (s : CubeState) : Face → Color
  | Face.U => s.U.s11
  | Face.D => s.D.s11
  | Face.L => s.L.s11
  | Face.R => s.R.s11
  | Face.F => s.F.s11
  | Face.B => s.B.s11

/-- Indicator for one facelet having color `c`. -/
def cnt (x c : Color) : Nat := if x = c then 1 else 0

/-- How many facelets of a face grid have color `c`. -/
def faceCount (g : FaceGrid) (c : Color) : Nat :=
  cnt g.s00 c + cnt g.s01 c + cnt g.s02 c +
  cnt g.s10 c + cnt g.s11 c + cnt g.s12 c +
  cnt g.s20 c + cnt g.s21 c + cnt g.s22 c

/-- How many of the 54 facelets of a state have color `c`. -/
def countColor (s : CubeState) (c : Color) : Nat :=
  faceCount s.U c + faceCount s.D c + faceCount s.L c +
  faceCount s.R c + faceCount s.F c + faceCount s.B c

/-- `isSolved` of `RubiksCubeSolver` (cube-solver.ts lines 993–1007): every
facelet of each face equals that face's own center `faceColors[1][1]` — a
uniform-faces test, not a comparison against the solved template. -/
def faceUniform (g : FaceGrid) : Bool :=
  (g.s00 == g.s11) && (g.s01 == g.s11) && (g.s02 == g.s11) &&
  (g.s10 == g.s11) && (g.s11 == g.s11) && (g.s12 == g.s11) &&
  (g.s20 == g.s11) && (g.s21 == g.s11) && (g.s22 == g.s11)

/-- `RubiksCubeSolver.isSolved(state)`: all six faces are uniform in their
own center color (iteration order U, D, L, R, F, B of `Object.keys`). -/
def solverIsSolved (s : CubeState) : Bool :=
  faceUniform s.U && faceUniform s.D && faceUniform s.L &&
  faceUniform s.R && faceUniform s.F && faceUniform s.B

/-- `interface SolutionStep`. -/
structure SolutionStep where
  move : String
  description : String
  layer : String
deriving DecidableEq, Repr

/-- `interface SolutionResult` without `solutionTime` (the wall-clock field
measured with `performance.now()`, which is timing only); this matches the
`Omit<SolutionResult, 'solutionTime'>` the algorithm itself returns.
`estimatedTime` is the source's float, modelled over `ℚ`; `difficulty` and
`algorithm` keep their literal strings. -/
structure SolutionResult where
  steps : List SolutionStep
  totalMoves : Nat
  estimatedTime : ℚ
  difficulty : String
  algorithm : String
  phase1Moves : Nat
  phase2Moves : Nat

/-- Lexicographic rank of the color's JavaScript name
("blue" < "green" < "orange" < "red" < "white" < "yellow"), the order
`Array.prototype.sort()` uses on color strings. -/
def colorRank : Color → Nat
  | Color.blue => 0
  | Color.green => 1
  | Color.orange => 2
  | Color.red => 3
  | Color.white => 4
  | Color.yellow => 5

/-- Insertion step for `sortColors`. -/
def insertColor (x : Color) : List Color → List Color
  | [] => [x]
  | y :: ys => if colorRank x ≤ colorRank y then x :: y :: ys else y :: insertColor x ys

/-- `Array.prototype.sort()` on a list of color names: sort by the
lexicographic order of the names. -/
def sortColors : List Color → List Color
  | [] => []
  | x :: xs => insertColor x (sortColors xs)

/-- `checkEdgeOrientation(state)`: the front-top edge pair matches the front
and top centers in either of the two orientations. -/
def checkEdgeOrientation (s : CubeState) : Bool :=
  ((s.F.s01 == s.F.s11) && (s.U.s21 == s.U.s11)) ||
  ((s.F.s01 == s.U.s11) && (s.U.s21 == s.F.s11))

/-- `checkCornerPositions(state)`: the front-right-top corner's three sticker
colors, sorted and joined, equal the sorted joined front/right/top centers.
The six color names start with six distinct letters, so equality of the
joined strings is equality of the sorted lists. -/
def checkCornerPositions (s : CubeState) : Bool :=
  sortColors [s.F.s02, s.R.s00, s.U.s22] == sortColors [s.F.s11, s.R.s11, s.U.s11]

/-- Per-face count of facelets that differ from the face's center, for
`calculateScrambleLevel`. -/
def faceWrongCount (g : FaceGrid) : Nat :=
  (if g.s00 = g.s11 then 0 else 1) + (if g.s01 = g.s11 then 0 else 1) +
  (if g.s02 = g.s11 then 0 else 1) + (if g.s10 = g.s11 then 0 else 1) +
  (if g.s11 = g.s11 then 0 else 1) + (if g.s12 = g.s11 then 0 else 1) +
  (if g.s20 = g.s11 then 0 else 1) + (if g.s21 = g.s11 then 0 else 1) +
  (if g.s22 = g.s11 then 0 else 1)

/-- `countSolvedFaces(state)`: how many faces are uniform in their center
color. -/
def countSolvedFaces (s : CubeState) : Nat :=
  (if faceUniform s.U then 1 else 0) + (if faceUniform s.D then 1 else 0) +
  (if faceUniform s.L then 1 else 0) + (if faceUniform s.R then 1 else 0) +
  (if faceUniform s.F then 1 else 0) + (if faceUniform s.B then 1 else 0)

/-- `calculateScrambleLevel(state)`: wrong facelets over 54. -/
def calculateScrambleLevel (s : CubeState) : ℚ :=
  ((faceWrongCount s.U + faceWrongCount s.D + faceWrongCount s.L +
    faceWrongCount s.R + faceWrongCount s.F + faceWrongCount s.B : Nat) : ℚ) / 54

/-- `interface CubeAnalysis`. -/
structure CubeAnalysis where
  edgesOriented : Bool
  cornersPositioned : Bool
  edgesPermuted : Bool
  cornersOriented : Bool
  solvedFaces : Nat
  scrambleLevel : ℚ

/-- `analyzeCubeState(state)`: `checkEdgePermutation` and
`checkCornerOrientation` are both `isSolved(state)` in the source. -/
def analyzeCubeState (s : CubeState) : CubeAnalysis :=
  { edgesOriented := checkEdgeOrientation s
    cornersPositioned := checkCornerPositions s
    edgesPermuted := solverIsSolved s
    cornersOriented := solverIsSolved s
    solvedFaces := countSolvedFaces s
    scrambleLevel := calculateScrambleLevel s }

/-- `findMisorientedEdges(state)`: which of the three checked top edges are
misoriented (sticker differs from its face's center). -/
def findMisorientedEdges (s : CubeState) : List String :=
  (if s.F.s01 ≠ s.F.s11 ∨ s.U.s21 ≠ s.U.s11 then ["front-top"] else []) ++
  (if s.R.s01 ≠ s.R.s11 ∨ s.U.s12 ≠ s.U.s11 then ["right-top"] else []) ++
  (if s.B.s01 ≠ s.B.s11 ∨ s.U.s01 ≠ s.U.s11 then ["back-top"] else [])

/-- `orientEdgesReal(state)`: one fixed algorithm string per misoriented
edge found. -/
def orientEdgesReal (s : CubeState) : List SolutionStep :=
  let badEdges := findMisorientedEdges s
  if badEdges.length > 0 then
    (if "front-top" ∈ badEdges then
      [⟨"F R U R' U' F'", "Orient front-top edge", "Edge Orientation"⟩] else []) ++
    (if "right-top" ∈ badEdges then
      [⟨"R U R' U'", "Orient right-top edge", "Edge Orientation"⟩] else []) ++
    (if "back-top" ∈ badEdges then
      [⟨"B U B' U'", "Orient back-top edge", "Edge Orientation"⟩] else [])
  else []

/-- `findWrongPositionCorners(state)`: the front-right-top corner, when its
sorted colors differ from the sorted centers (`arraysEqual` on the sorted
arrays). -/
def findWrongPositionCorners (s : CubeState) : List String :=
  if sortColors [s.F.s02, s.R.s00, s.U.s22] = sortColors [s.F.s11, s.R.s11, s.U.s11]
  then [] else ["front-right-top"]

/-- `positionCornersReal(state)`. -/
def positionCornersReal (s : CubeState) : List SolutionStep :=
  if (findWrongPositionCorners s).length > 0 then
    [⟨"R U R' F' R U R' U' R' F R2 U' R'", "Position corners for Phase 2",
      "Corner Positioning"⟩]
  else []

/-- `solveCornerPermutationPhase2(state)`. -/
def solveCornerPermutationPhase2 (_s : CubeState) : List SolutionStep :=
  [⟨"U R2 U' R2 U'", "Permute corners (Phase 2)", "Phase 2 Corners"⟩]

/-- `solveEdgePermutationPhase2(state)`. -/
def solveEdgePermutationPhase2 (_s : CubeState) : List SolutionStep :=
  [⟨"U2 R2 U2 R2 U2", "Permute edges (Phase 2)", "Phase 2 Edges"⟩]

/-- `kociembaPhase1Real(state, analysis)`: orient edges when needed, then
position corners when needed, capped at 12 steps. -/
def kociembaPhase1Real (s : CubeState) (analysis : CubeAnalysis) : List SolutionStep :=
  ((if analysis.edgesOriented = false then orientEdgesReal s else []) ++
   (if analysis.cornersPositioned = false then positionCornersReal s else [])).take 12

/-- `kociembaPhase2Real(state, analysis)`: corner permutation then edge
permutation, capped at 18 steps. -/
def kociembaPhase2Real (s : CubeState) (analysis : CubeAnalysis) : List SolutionStep :=
  ((if analysis.cornersOriented = false then solveCornerPermutationPhase2 s else []) ++
   (if analysis.edgesPermuted = false then solveEdgePermutationPhase2 s else [])).take 18

/-- `kociembaAlgorithm(state)` (the "Real" two-phase path of the second
solver version, lines 740–778): run Phase 1 on the input's analysis, replay
the Phase 1 step strings over the state with `applyMove` to get the
intermediate state, run Phase 2 on its analysis, and assemble the result.
`0.4` is written as `2/5 : ℚ`. -/
def kociembaAlgorithm (s : CubeState) : Option SolutionResult :=
  let analysis := analyzeCubeState s
  let phase1Steps := kociembaPhase1Real s analysis
  match replay s (phase1Steps.map SolutionStep.move) with
  | none => none
  | some intermediateState =>
      let phase2Analysis := analyzeCubeState intermediateState
      let phase2Steps := kociembaPhase2Real intermediateState phase2Analysis
      let allSteps := phase1Steps ++ phase2Steps
      let totalMoves := allSteps.length
      some
        { steps := allSteps
          totalMoves := totalMoves
          estimatedTime := max 8 ((totalMoves : ℚ) * 2 / 5)
          difficulty :=
            if totalMoves ≤ 20 then "Easy"
            else if totalMoves ≤ 30 then "Medium" else "Hard"
          algorithm := "Kociemba"
          phase1Moves := phase1Steps.length
          phase2Moves := phase2Steps.length }

/-- `solveCube(state)`: return the empty zero-move result at once when
`isSolved(state)`, otherwise run the two-phase algorithm. -/
def solveCube (s : CubeState) : Option SolutionResult :=
  if solverIsSolved s then
    some
      { steps := []
        totalMoves := 0
        estimatedTime := 0
        difficulty := "Easy"
        algorithm := "Kociemba"
        phase1Moves := 0
        phase2Moves := 0 }
  else kociembaAlgorithm s

/-- The private fields of `class CubeStateManager` (cube-state-manager.ts):
the live state, the move history log and the last scramble sequence. The
constructor starts from `createSolvedCube()` with empty lists. -/
structure Manager where
  currentState : CubeState
  moveHistory : List String
  scrambleSequence : List String
deriving DecidableEq, Repr

/-- A freshly constructed `CubeStateManager`. -/
def initialManager : Manager :=
  { currentState := createSolvedCube, moveHistory := [], scrambleSequence := [] }

/-- `CubeStateManager.applyMove(move)`: delegate to the solver's `applyMove`
and push the move onto the history. When the solver's `applyMove` throws
(unknown face character) the assignment and the push never happen, modelled
as `none`. -/
def managerApplyMove (m : Manager) (move : String) : Option Manager :=
  (applyMove m.currentState move).map fun st =>
    { m with currentState := st, moveHistory := m.moveHistory ++ [move] }

/-- `CubeStateManager.getInverseMove(move)`: `'` maps to the bare face,
`2` maps to the move itself, anything else gets `'` appended to the face
character (`charAt(0)` and `slice(1)` parsing as in `applyMove`). -/
def getInverseMove (move : String) : String :=
  let face : String := String.mk (move.toList.take 1)
  let modifier : String := String.mk (move.toList.drop 1)
  if modifier = "'" then face
  else if modifier = "2" then move
  else face ++ "'"

/-- `CubeStateManager.isSolved()`: `JSON.stringify(currentState)` compared to
`JSON.stringify(createSolvedCube())`. All states here are built from the same
object shape with a fixed key order, so stringify equality is deep structural
equality of the state values. -/
def managerIsSolved (m : Manager) : Bool :=
  m.currentState == solvedCube

/-- `CubeStateManager.undoLastMove()`: on an empty history return `false` and
change nothing; otherwise pop the last move, apply its inverse without
logging it, and return `true`. A throwing inverse application (impossible
for moves that entered the history through `applyMove`) is `none`. -/
def undoLastMove (m : Manager) : Option (Bool × Manager) :=
  match m.moveHistory.getLast? with
  | none => some (false, m)
  | some lastMove =>
      (applyMove m.currentState (getInverseMove lastMove)).map fun st =>
        (true, { m with currentState := st, moveHistory := m.moveHistory.dropLast })

/-- One draw of the random stream:
`possibleMoves[Math.floor(Math.random() * possibleMoves.length)]`, where
`rand k` is the `k`-th value of `Math.floor(Math.random() * 18)`. -/
def drawMove (rand : Nat → Fin 18) (k : Nat) : String :=
  possibleMoves.get (Fin.cast (by rfl) (rand k))

/-- The scrambler's `do…while` loop: draw `drawMove rand k` and retry
(consuming fuel) while the scramble is nonempty and
`isOppositeMove(scramble[scramble.length - 1], move)` holds. -/
def pickMove (rand : Nat → Fin 18) : Nat → Nat → List String → Option (String × Nat)
  | 0, _, _ => none
  | fuel + 1, k, scramble =>
      match scramble.getLast? with
      | none => some (drawMove rand k, k + 1)
      | some lastMove =>
          if isOppositeMove lastMove (drawMove rand k) then
            pickMove rand fuel (k + 1) scramble
          else some (drawMove rand k, k + 1)

/-- The scrambler's main `for` loop: each iteration draws an accepted move,
pushes it and applies it. -/
def scrambleLoop (rand : Nat → Fin 18) (fuel : Nat) :
    Nat → List String → CubeState → Nat → Option (CubeState × List String)
  | 0, scramble, state, _ => some (state, scramble)
  | n + 1, scramble, state, k =>
      match pickMove rand fuel k scramble with
      | none => none
      | some (move, k') =>
          match applyMove state move with
          | none => none
          | some state' => scrambleLoop rand fuel n (scramble ++ [move]) state' k'

/-- `scrambleCube(moves)`: starting from a fresh solved cube with an empty
scramble, run the loop `moves` times. `rand` is the random stream and `fuel`
bounds each rejection loop (the JavaScript loop is unbounded and terminates
with probability 1). -/
def scrambleCube (rand : Nat → Fin 18) (fuel moves : Nat) :
    Option (CubeState × List String) :=
  scrambleLoop rand fuel moves [] createSolvedCube 0

/-- The sticker labels of the 3D component's own `CubeState` (single-letter
color codes `W Y R O G B`). -/
inductive CColor where
  | W
  | Y
  | R
  | O
  | G
  | B
deriving DecidableEq, Repr

/-- One face of the component's state: a `string[]` of 9 squares in
row-major order (index `3 * row + col`). -/
structure CFace where
  c0 : CColor
  c1 : CColor
  c2 : CColor
  c3 : CColor
  c4 : CColor
  c5 : CColor
  c6 : CColor
  c7 : CColor
  c8 : CColor
deriving DecidableEq, Repr

/-- The component's `interface CubeState` with its six named faces. -/
structure ComponentState where
  front : CFace
  back : CFace
  top : CFace
  bottom : CFace
  left : CFace
  right : CFace
deriving DecidableEq, Repr

/-- A component face filled with one label. -/
def uniformCFace (c : CColor) : CFace :=
  ⟨c, c, c, c, c, c, c, c, c⟩

/-- `SOLVED_CUBE` of the component: green front, blue back, white top,
yellow bottom, orange left, red right. -/
def solvedComponent : ComponentState :=
  { front := uniformCFace CColor.G
    back := uniformCFace CColor.B
    top := uniformCFace CColor.W
    bottom := uniformCFace CColor.Y
    left := uniformCFace CColor.O
    right := uniformCFace CColor.R }

/-- The component's `rotateFaceClockwise`:
`[0..8] -> [6,3,0,7,4,1,8,5,2]`. -/
def rotateFaceClockwise (f : CFace) : CFace :=
  ⟨f.c6, f.c3, f.c0, f.c7, f.c4, f.c1, f.c8, f.c5, f.c2⟩

/-- The 3D component's `applyMove(move, state)`: a `switch` over the twelve
single-turn tokens, each case written as a direct permutation of a state
copy (sequential assignments with a `temp` save, expressed here in terms of
the state before the move); a token with no case — every `X2` token
included — falls through the `switch` and returns the copy unchanged. -/
def componentApplyMove (move : String) (s : ComponentState) : ComponentState :=
  match move with
  | "R" =>
      { s with
        right := rotateFaceClockwise s.right
        front := { s.front with c2 := s.bottom.c2, c5 := s.bottom.c5, c8 := s.bottom.c8 }
        bottom := { s.bottom with c2 := s.back.c6, c5 := s.back.c3, c8 := s.back.c0 }
        back := { s.back with c6 := s.top.c2, c3 := s.top.c5, c0 := s.top.c8 }
        top := { s.top with c2 := s.front.c2, c5 := s.front.c5, c8 := s.front.c8 } }
  | "R'" =>
      { s with
        right := rotateFaceClockwise (rotateFaceClockwise (rotateFaceClockwise s.right))
        front := { s.front with c2 := s.top.c2, c5 := s.top.c5, c8 := s.top.c8 }
        top := { s.top with c2 := s.back.c6, c5 := s.back.c3, c8 := s.back.c0 }
        back := { s.back with c6 := s.bottom.c2, c3 := s.bottom.c5, c0 := s.bottom.c8 }
        bottom := { s.bottom with c2 := s.front.c2, c5 := s.front.c5, c8 := s.front.c8 } }
  | "L" =>
      { s with
        left := rotateFaceClockwise s.left
        front := { s.front with c0 := s.top.c0, c3 := s.top.c3, c6 := s.top.c6 }
        top := { s.top with c0 := s.back.c8, c3 := s.back.c5, c6 := s.back.c2 }
        back := { s.back with c8 := s.bottom.c0, c5 := s.bottom.c3, c2 := s.bottom.c6 }
        bottom := { s.bottom with c0 := s.front.c0, c3 := s.front.c3, c6 := s.front.c6 } }
  | "L'" =>
      { s with
        left := rotateFaceClockwise (rotateFaceClockwise (rotateFaceClockwise s.left))
        front := { s.front with c0 := s.bottom.c0, c3 := s.bottom.c3, c6 := s.bottom.c6 }
        bottom := { s.bottom with c0 := s.back.c8, c3 := s.back.c5, c6 := s.back.c2 }
        back := { s.back with c8 := s.top.c0, c5 := s.top.c3, c2 := s.top.c6 }
        top := { s.top with c0 := s.front.c0, c3 := s.front.c3, c6 := s.front.c6 } }
  | "U" =>
      { s with
        top := rotateFaceClockwise s.top
        front := { s.front with c0 := s.right.c0, c1 := s.right.c1, c2 := s.right.c2 }
        right := { s.right with c0 := s.back.c0, c1 := s.back.c1, c2 := s.back.c2 }
        back := { s.back with c0 := s.left.c0, c1 := s.left.c1, c2 := s.left.c2 }
        left := { s.left with c0 := s.front.c0, c1 := s.front.c1, c2 := s.front.c2 } }
  | "U'" =>
      { s with
        top := rotateFaceClockwise (rotateFaceClockwise (rotateFaceClockwise s.top))
        front := { s.front with c0 := s.left.c0, c1 := s.left.c1, c2 := s.left.c2 }
        left := { s.left with c0 := s.back.c0, c1 := s.back.c1, c2 := s.back.c2 }
        back := { s.back with c0 := s.right.c0, c1 := s.right.c1, c2 := s.right.c2 }
        right := { s.right with c0 := s.front.c0, c1 := s.front.c1, c2 := s.front.c2 } }
  | "D" =>
      { s with
        bottom := rotateFaceClockwise s.bottom
        front := { s.front with c6 := s.left.c6, c7 := s.left.c7, c8 := s.left.c8 }
        left := { s.left with c6 := s.back.c6, c7 := s.back.c7, c8 := s.back.c8 }
        back := { s.back with c6 := s.right.c6, c7 := s.right.c7, c8 := s.right.c8 }
        right := { s.right with c6 := s.front.c6, c7 := s.front.c7, c8 := s.front.c8 } }
  | "D'" =>
      { s with
        bottom := rotateFaceClockwise (rotateFaceClockwise (rotateFaceClockwise s.bottom))
        front := { s.front with c6 := s.right.c6, c7 := s.right.c7, c8 := s.right.c8 }
        right := { s.right with c6 := s.back.c6, c7 := s.back.c7, c8 := s.back.c8 }
        back := { s.back with c6 := s.left.c6, c7 := s.left.c7, c8 := s.left.c8 }
        left := { s.left with c6 := s.front.c6, c7 := s.front.c7, c8 := s.front.c8 } }
  | "F" =>
      { s with
        front := rotateFaceClockwise s.front
        top := { s.top with c6 := s.left.c8, c7 := s.left.c5, c8 := s.left.c2 }
        left := { s.left with c8 := s.bottom.c2, c5 := s.bottom.c1, c2 := s.bottom.c0 }
        bottom := { s.bottom with c2 := s.right.c0, c1 := s.right.c3, c0 := s.right.c6 }
        right := { s.right with c0 := s.top.c6, c3 := s.top.c7, c6 := s.top.c8 } }
  | "F'" =>
      { s with
        front := rotateFaceClockwise (rotateFaceClockwise (rotateFaceClockwise s.front))
        top := { s.top with c6 := s.right.c0, c7 := s.right.c3, c8 := s.right.c6 }
        right := { s.right with c0 := s.bottom.c2, c3 := s.bottom.c1, c6 := s.bottom.c0 }
        bottom := { s.bottom with c2 := s.left.c8, c1 := s.left.c5, c0 := s.left.c2 }
        left := { s.left with c8 := s.top.c6, c5 := s.top.c7, c2 := s.top.c8 } }
  | "B" =>
      { s with
        back := rotateFaceClockwise s.back
        top := { s.top with c0 := s.right.c2, c1 := s.right.c5, c2 := s.right.c8 }
        right := { s.right with c2 := s.bottom.c8, c5 := s.bottom.c7, c8 := s.bottom.c6 }
        bottom := { s.bottom with c8 := s.left.c6, c7 := s.left.c3, c6 := s.left.c0 }
        left := { s.left with c6 := s.top.c0, c3 := s.top.c1, c0 := s.top.c2 } }
  | "B'" =>
      { s with
        back := rotateFaceClockwise (rotateFaceClockwise (rotateFaceClockwise s.back))
        top := { s.top with c0 := s.left.c6, c1 := s.left.c3, c2 := s.left.c0 }
        left := { s.left with c6 := s.bottom.c8, c3 := s.bottom.c7, c0 := s.bottom.c6 }
        bottom := { s.bottom with c8 := s.right.c2, c7 := s.right.c5, c6 := s.right.c8 }
        right := { s.right with c2 := s.top.c0, c5 := s.top.c1, c8 := s.top.c2 } }
  | _ => s

/-- A cube whose 54 facelets are all white: every face is uniform in its own
center color, yet the state is not the solved template. -/
def allWhiteCube : CubeState :=
  { U := uniformFace Color.white
    D := uniformFace Color.white
    L := uniformFace Color.white
    R := uniformFace Color.white
    F := uniformFace Color.white
    B := uniformFace Color.white }

/-- The six base faces with their counter-clockwise and double tokens. -/
def baseTriples : List (String × String × String) :=
  [("R", "R'", "R2"), ("L", "L'", "L2"), ("U", "U'", "U2"),
   ("D", "D'", "D2"), ("F", "F'", "F2"), ("B", "B'", "B2")]

/-- A concrete random stream for exercising the scrambler: the successive
draws 0, 1, 2, …. -/
def c6Rand : Nat → Fin 18 := fun k => ⟨k % 18, Nat.mod_lt _ (by decide)⟩

/-- A random stream whose draws 0, 3, 6, … pick the moves R L U D F B in
rotation, so no draw is ever rejected. -/
def c1Rand : Nat → Fin 18 := fun k => ⟨(3 * k) % 18, Nat.mod_lt _ (by decide)⟩

/-- The 20-move scramble `c1Rand` produces. -/
def c1Moves : List String :=
  ["R", "L", "U", "D", "F", "B", "R", "L", "U", "D", "F", "B",
   "R", "L", "U", "D", "F", "B", "R", "L"]

/-- The state `scrambleCube` reaches with `c1Rand` after 20 moves. -/
def c1State : CubeState :=
  (replay createSolvedCube c1Moves).getD createSolvedCube

/-! Helper lemmas about the move engine. -/

lemma rot4 (f : Face) (s : CubeState) :
    rotateFace f (rotateFace f (rotateFace f (rotateFace f s))) = s := by
  cases f <;> rfl

lemma centerOf_rotateFace (f : Face) (s : CubeState) (g : Face) :
    centerOf (rotateFace f s) g = centerOf s g := by
  cases f <;> cases g <;> rfl

lemma countColor_rotateFace (f : Face) (s : CubeState) (c : Color) :
    countColor (rotateFace f s) c = countColor s c := by
  cases f <;> (dsimp only [rotateFace, rotSelf, countColor, faceCount]; omega)

lemma centerOf_rotN (f : Face) (n : Nat) (s : CubeState) (g : Face) :
    centerOf (rotN f n s) g = centerOf s g := by
  induction n generalizing s with
  | zero => rfl
  | succ n ih => rw [rotN, ih, centerOf_rotateFace]

lemma countColor_rotN (f : Face) (n : Nat) (s : CubeState) (c : Color) :
    countColor (rotN f n s) c = countColor s c := by
  induction n generalizing s with
  | zero => rfl
  | succ n ih => rw [rotN, ih, countColor_rotateFace]

lemma replay_append (s : CubeState) (l1 l2 : List String) :
    replay s (l1 ++ l2) = (replay s l1).bind (fun t => replay t l2) := by
  induction l1 generalizing s with
  | nil => rfl
  | cons m ms ih =>
      simp only [List.cons_append, replay]
      cases applyMove s m with
      | none => rfl
      | some s' => exact ih s'

lemma drawMove_mem (rand : Nat → Fin 18) (k : Nat) :
    drawMove rand k ∈ possibleMoves :=
  List.get_mem _ _ _

lemma pickMove_spec (rand : Nat → Fin 18) :
    ∀ fuel k scr mv k', pickMove rand fuel k scr = some (mv, k') →
      mv ∈ possibleMoves ∧
      ∀ lastMv, scr.getLast? = some lastMv → isOppositeMove lastMv mv = false := by
  intro fuel
  induction fuel with
  | zero =>
      intro k scr mv k' h
      exact absurd h (by simp [pickMove])
  | succ fuel ih =>
      intro k scr mv k' h
      rw [pickMove] at h
      split at h
      · rename_i heq
        simp only [Option.some.injEq, Prod.mk.injEq] at h
        obtain ⟨rfl, rfl⟩ := h
        refine ⟨drawMove_mem rand k, ?_⟩
        intro lastMv hl'
        rw [heq] at hl'
        exact Option.noConfusion hl'
      · rename_i lastMv heq
        split at h
        · exact ih (k + 1) scr mv k' h
        · rename_i hop
          simp only [Option.some.injEq, Prod.mk.injEq] at h
          obtain ⟨rfl, rfl⟩ := h
          refine ⟨drawMove_mem rand k, ?_⟩
          intro l hsl
          rw [heq] at hsl
          injection hsl with e
          subst e
          simpa using hop

lemma scrambleLoop_spec (rand : Nat → Fin 18) (fuel : Nat) :
    ∀ n scr0 st0 k st scr,
      (∀ m ∈ scr0, m ∈ possibleMoves) →
      List.Chain' (fun a b => isOppositeMove a b = false) scr0 →
      replay createSolvedCube scr0 = some st0 →
      scrambleLoop rand fuel n scr0 st0 k = some (st, scr) →
      scr.length = scr0.length + n ∧ (∀ m ∈ scr, m ∈ possibleMoves) ∧
      List.Chain' (fun a b => isOppositeMove a b = false) scr ∧
      replay createSolvedCube scr = some st := by
  intro n
  induction n with
  | zero =>
      intro scr0 st0 k st scr hmem hch hrep h
      rw [scrambleLoop] at h
      simp only [Option.some.injEq, Prod.mk.injEq] at h
      obtain ⟨rfl, rfl⟩ := h
      exact ⟨(Nat.add_zero _).symm, hmem, hch, hrep⟩
  | succ n ih =>
      intro scr0 st0 k st scr hmem hch hrep h
      rw [scrambleLoop] at h
      split at h
      · exact Option.noConfusion h
      · rename_i mv k' hpick
        split at h
        · exact Option.noConfusion h
        · rename_i st1 happ
          obtain ⟨hmv_mem, hmv_last⟩ := pickMove_spec rand fuel k scr0 mv k' hpick
          have hmem' : ∀ m ∈ scr0 ++ [mv], m ∈ possibleMoves := by
            intro x hx
            rcases List.mem_append.mp hx with hx | hx
            · exact hmem x hx
            · rw [List.mem_singleton] at hx
              subst hx
              exact hmv_mem
          have hch' : List.Chain' (fun a b => isOppositeMove a b = false) (scr0 ++ [mv]) := by
            rw [List.chain'_append]
            refine ⟨hch, List.chain'_singleton _, ?_⟩
            intro x hx y hy
            simp only [List.head?_cons, Option.mem_def, Option.some.injEq] at hy
            subst hy
            exact hmv_last x (Option.mem_def.mp hx)
          have hrep' : replay createSolvedCube (scr0 ++ [mv]) = some st1 := by
            rw [replay_append, hrep]
            show replay st0 [mv] = some st1
            simp [replay, happ]
          have main := ih (scr0 ++ [mv]) st1 k' st scr hmem' hch' hrep' h
          refine ⟨?_, main.2.1, main.2.2.1, main.2.2.2⟩
          rw [main.1, List.length_append, List.length_singleton]
          omega

/-! The claims. -/

/-- C7. `solveCube` on the solved state returns the empty solution with zero
total moves at once (the early `isSolved` return), without running the
two-phase algorithm. -/
theorem solveCube_solved_empty :
    solveCube createSolvedCube =
      some { steps := [], totalMoves := 0, estimatedTime := 0, difficulty := "Easy",
             algorithm := "Kociemba", phase1Moves := 0, phase2Moves := 0 } := rfl

/-- C2. Every move of the 18-move alphabet succeeds and changes neither any
of the six center facelets nor the total count of any color. -/
theorem move_preserves_centers_and_color_counts (s : CubeState) (m : String)
    (hm : m ∈ possibleMoves) :
    ∃ t, applyMove s m = some t ∧ (∀ f, centerOf t f = centerOf s f) ∧
      ∀ c, countColor t c = countColor s c := by
  fin_cases hm <;>
    exact ⟨_, rfl, fun f => centerOf_rotN _ _ s f, fun c => countColor_rotN _ _ s c⟩

/-- Witness for C2: the move `R` on the solved cube. -/
theorem move_preserves_centers_and_color_counts_witness :
    ∃ t, applyMove solvedCube "R" = some t ∧
      (∀ f, centerOf t f = centerOf solvedCube f) ∧
      ∀ c, countColor t c = countColor solvedCube c :=
  move_preserves_centers_and_color_counts solvedCube "R" (by decide)

/-- C3. For every state and every alphabet move, applying the move and then
its `getInverseMove` inverse restores the state exactly. -/
theorem move_inverse_round_trip (s : CubeState) (m : String)
    (hm : m ∈ possibleMoves) :
    (applyMove s m).bind (fun t => applyMove t (getInverseMove m)) = some s := by
  fin_cases hm <;> rfl

/-- Witness for C3: the move `R` on the solved cube. -/
theorem move_inverse_round_trip_witness :
    (applyMove solvedCube "R").bind
      (fun t => applyMove t (getInverseMove "R")) = some solvedCube :=
  move_inverse_round_trip solvedCube "R" (by decide)

/-- Counterexample for C4: the all-white cube passes the solver's `isSolved`
check although it is not the solved template (the manager's stringify-based
check rejects it). -/
theorem solver_check_accepts_non_template :
    solverIsSolved allWhiteCube = true ∧ allWhiteCube ≠ solvedCube ∧
    managerIsSolved
      { currentState := allWhiteCube, moveHistory := [], scrambleSequence := [] }
      = false := by
  refine ⟨rfl, by decide, rfl⟩

/-- C4 as amended: the manager's `isSolved` is exactly deep structural
equality with the solved template; the solver's `isSolved` check that gates
`solveCube` is implied by template equality but does not imply it — it only
tests that every face is uniform in its own center color. -/
theorem solved_checks_characterization :
    (∀ m : Manager, managerIsSolved m = true ↔ m.currentState = solvedCube) ∧
    (∀ s : CubeState, s = solvedCube → solverIsSolved s = true) ∧
    ¬ ∀ s : CubeState, solverIsSolved s = true → s = solvedCube := by
  refine ⟨fun m => ?_, ?_, ?_⟩
  · simp [managerIsSolved]
  · rintro s rfl
    rfl
  · intro h
    exact absurd (h allWhiteCube rfl) (by decide)

/-- Witness for C4's amended claim: the fresh manager reports solved, and the
solved template passes the solver check. -/
theorem solved_checks_characterization_witness :
    managerIsSolved initialManager = true ∧ solverIsSolved solvedCube = true :=
  ⟨(solved_checks_characterization.1 initialManager).mpr rfl,
   solved_checks_characterization.2.1 solvedCube rfl⟩

/-- Counterexample for C5: the malformed token `R3` (valid face, modifier
not one of `''`, `'`, `2`) does not fail — `applyMove` returns a state,
silently treating the token as a single clockwise `R` turn. -/
theorem invalid_modifier_returns_state :
    applyMove solvedCube "R3" = applyMove solvedCube "R" ∧
    (applyMove solvedCube "R3").isSome = true := ⟨rfl, rfl⟩

/-- C5 as amended: a token whose face character is not one of U, D, L, R, F,
B (the empty token included) makes `applyMove` throw (modelled `none`) — a
TypeError, not a typed `InvalidMove` error — while a token with a valid face
character but an unrecognized modifier suffix is silently misinterpreted as
one clockwise turn of that face. -/
theorem applyMove_bad_token_behavior (s : CubeState) (tok : String) :
    (tok.toList.head?.bind charToFace = none → applyMove s tok = none) ∧
    ∀ c rest f, tok.toList = c :: rest → charToFace c = some f →
      String.mk rest ≠ "'" → String.mk rest ≠ "2" →
      applyMove s tok = some (rotateFace f s) := by
  constructor
  · intro h
    have h2 : tok.data.head?.bind charToFace = none := h
    simp [applyMove, h2]
  · intro c rest f htl hf h1 h2
    have htl2 : tok.data = c :: rest := htl
    simp [applyMove, htl2, hf, h1, h2, rotN]

/-- Witness for C5's amended claim: `R3` acts as one clockwise `R` turn, and
the unknown face token `X` fails. -/
theorem applyMove_bad_token_behavior_witness :
    applyMove solvedCube "R3" = some (rotateFace Face.R solvedCube) ∧
    applyMove solvedCube "X" = none :=
  ⟨(applyMove_bad_token_behavior solvedCube "R3").2 'R' ['3'] Face.R rfl rfl
     (by decide) (by decide),
   (applyMove_bad_token_behavior solvedCube "X").1 rfl⟩

/-- C10. `undoLastMove` on a manager with an empty history returns `false`
and leaves the manager (state and history) unchanged. -/
theorem undo_empty_history (m : Manager) (h : m.moveHistory = []) :
    undoLastMove m = some (false, m) := by
  simp [undoLastMove, h]

/-- Witness for C10: the freshly constructed manager. -/
theorem undo_empty_history_witness :
    undoLastMove initialManager = some (false, initialManager) :=
  undo_empty_history initialManager rfl

/-- C8. Applying `R` through the manager and then undoing restores both the
cube state and the move history (and the scramble sequence) exactly; the
undo returns `true`. -/
theorem apply_r_then_undo_restores (m : Manager) :
    (managerApplyMove m "R").bind undoLastMove = some (true, m) := by
  obtain ⟨cs, hist, scr⟩ := m
  have h1 : (managerApplyMove ⟨cs, hist, scr⟩ "R").bind undoLastMove
      = undoLastMove ⟨rotateFace Face.R cs, hist ++ ["R"], scr⟩ := rfl
  have h2 : applyMove (rotateFace Face.R cs) (getInverseMove "R") = some cs :=
    congrArg some (rot4 Face.R cs)
  rw [h1]
  simp only [undoLastMove, List.getLast?_concat, h2, Option.map_some']
  rw [List.dropLast_concat]

/-- Counterexample for C9: the component's `applyMove` has no case for double
moves — `R2` leaves the state unchanged instead of equalling two `R` turns. -/
theorem component_double_move_noop :
    componentApplyMove "R2" solvedComponent = solvedComponent ∧
    componentApplyMove "R2" solvedComponent ≠
      componentApplyMove "R" (componentApplyMove "R" solvedComponent) := by
  exact ⟨rfl, by decide⟩

/-- C9 as amended: for each base face, the solver's `applyMove` gives
`X' = X·X·X` and `X2 = X·X` bit-identically (its rotation-count loop), and
the component's directly-written `X'` permutation equals three of its `X`
turns bit-identically; but the component does not handle `X2` at all and
leaves the state unchanged. -/
theorem modifier_equivalences (s : CubeState) (cs : ComponentState)
    (t : String × String × String) (ht : t ∈ baseTriples) :
    applyMove s t.2.1 =
      ((applyMove s t.1).bind fun a => (applyMove a t.1).bind fun b => applyMove b t.1) ∧
    applyMove s t.2.2 = ((applyMove s t.1).bind fun a => applyMove a t.1) ∧
    componentApplyMove t.2.1 cs =
      componentApplyMove t.1 (componentApplyMove t.1 (componentApplyMove t.1 cs)) ∧
    componentApplyMove t.2.2 cs = cs := by
  fin_cases ht <;> exact ⟨rfl, rfl, rfl, rfl⟩

/-- Witness for C9's amended claim: the R face triple on the solved states. -/
theorem modifier_equivalences_witness :
    applyMove solvedCube "R'" =
      ((applyMove solvedCube "R").bind fun a =>
        (applyMove a "R").bind fun b => applyMove b "R") ∧
    applyMove solvedCube "R2" = ((applyMove solvedCube "R").bind fun a => applyMove a "R") ∧
    componentApplyMove "R'" solvedComponent =
      componentApplyMove "R"
        (componentApplyMove "R" (componentApplyMove "R" solvedComponent)) ∧
    componentApplyMove "R2" solvedComponent = solvedComponent :=
  modifier_equivalences solvedCube solvedComponent ("R", "R'", "R2") (by decide)

/-- C6. Whenever the scrambler returns (for any random stream and any retry
fuel), it returns exactly `n` moves, all from the 18-move alphabet, with no
two neighbouring moves sharing a base face, together with exactly the state
reached by replaying those moves from the solved cube; for `n = 0` that is
the solved cube and the empty list. -/
theorem scramble_contract (rand : Nat → Fin 18) (fuel n : Nat) (st : CubeState)
    (scr : List String) (h : scrambleCube rand fuel n = some (st, scr)) :
    scr.length = n ∧ (∀ m ∈ scr, m ∈ possibleMoves) ∧
    List.Chain' (fun a b => isOppositeMove a b = false) scr ∧
    replay createSolvedCube scr = some st ∧
    (n = 0 → st = createSolvedCube ∧ scr = []) := by
  have main := scrambleLoop_spec rand fuel n [] createSolvedCube 0 st scr
    (by simp) List.chain'_nil rfl h
  refine ⟨by simpa using main.1, main.2.1, main.2.2.1, main.2.2.2, ?_⟩
  rintro rfl
  have h0 : scrambleCube rand fuel 0 = some (createSolvedCube, []) := rfl
  rw [h0] at h
  simp only [Option.some.injEq, Prod.mk.injEq] at h
  exact ⟨h.1.symm, h.2.symm⟩

/-- Witness for C6: a concrete stream drawing 0, 1, 2, … produces the
two-move scramble `R L` (after rejecting `R'` and `R2`). -/
theorem scramble_contract_witness :
    ∃ st scr, scrambleCube c6Rand 5 2 = some (st, scr) ∧
      (scr.length = 2 ∧ (∀ m ∈ scr, m ∈ possibleMoves) ∧
       List.Chain' (fun a b => isOppositeMove a b = false) scr ∧
       replay createSolvedCube scr = some st ∧
       (2 = 0 → st = createSolvedCube ∧ scr = [])) := by
  refine ⟨_, _, rfl, ?_⟩
  exact scramble_contract c6Rand 5 2 _ _ rfl

/-- C1 is a code bug: `c1State` is a state `scrambleCube` produces after 20
moves (witnessed by the concrete stream `c1Rand`, which is never rejected),
`solveCube` on it succeeds with 5 steps (so the nominal `totalMoves ≤ 30`
bound holds), yet replaying the returned steps' moves from `c1State` with
`applyMove` leaves the cube unsolved — the demo solver's fixed algorithm
strings do not solve the state. -/
theorem solver_output_does_not_solve_scramble20 :
    scrambleCube c1Rand 1 20 = some (c1State, c1Moves) ∧
    ((solveCube c1State).map SolutionResult.totalMoves = some 5) ∧
    (((solveCube c1State).bind fun r =>
        replay c1State (r.steps.map SolutionStep.move)).map solverIsSolved
      = some false) ∧
    ((solveCube c1State).bind fun r =>
        replay c1State (r.steps.map SolutionStep.move)) ≠ some solvedCube := by
  refine ⟨?_, ?_, ?_, ?_⟩ <;> decide
